import Mathlib

/-!
The library libfs (`src/libfs/fs.c`): mount manager of the ECS150 FAT filesystem

A shallow embedding of `fs.c`.  The global variables `g_mounted`, `g_sb`,
`g_fat` and `g_root` become the fields of `FsState`; every API function takes
the state and returns the return code, the new state and the list of block
device calls it made.  The block device (`disk.h`) and the allocator are
external: their answers during one API call are the fields of `Env`.

Memory is modelled at byte level: `g_sb` and `g_root` are the raw bytes of the
packed structures, `g_fat` is the raw heap buffer, and fields are decoded with
the little-endian readers `rd16`/`rd32` (the byte order of the host the
library is written for).
-/

namespace Libfs

/-! ## Constants -/

/-- Modelled from the spec: `BLOCK_SIZE` is declared in `disk.h`, which is not
among the sources.  The spec speaks of 4096-byte blocks and `superblock_t` is
padded to exactly 4096 bytes so that `block_read(0, &g_sb)` fills it. -/
def BLOCK_SIZE : Nat := 4096

/-- The string literal of `FS_SIGNATURE`. -/
def FS_SIGNATURE_STR : String := "ECS150FS"

/-- The bytes of `FS_SIGNATURE`. -/
def FS_SIGNATURE : List Nat := [69, 67, 83, 49, 53, 48, 70, 83]

/-- Value of `FS_SIGNATURE_LEN`. -/
def FS_SIGNATURE_LEN : Nat := 8

/-- Value of `FAT_EOC`. -/
def FAT_EOC : Nat := 0xFFFF

/-- Value of `FS_MAX_FILES`. -/
def FS_MAX_FILES : Nat := 128

/-- Value of `FS_MAX_FILENAME`. -/
def FS_MAX_FILENAME : Nat := 16

/-- Size of the packed `dir_entry_t`: 16 + 4 + 2 + 10 bytes. -/
def DIR_ENTRY_SIZE : Nat := FS_MAX_FILENAME + 4 + 2 + 10

/-- Size of the packed `superblock_t`: 8 + 2*4 + 1 + (4096 - 8 - 2*4 - 1). -/
def SUPERBLOCK_SIZE : Nat := FS_SIGNATURE_LEN + 2 * 4 + 1 + (4096 - 8 - 2 * 4 - 1)

/-! ## The external block device and allocator -/

/-- One block as `block_read` delivers it: exactly `BLOCK_SIZE` bytes. -/
structure Block where
  bytes : List Nat
  size_eq : bytes.length = BLOCK_SIZE
  byte_lt : ∀ x ∈ bytes, x < 256

/-- A call of the block device API of `disk.h`. -/
inductive DevOp where
  | disk_open (name : String)
  | block_read (i : Nat)
  | disk_count
  | disk_close
  deriving DecidableEq, Repr

/-- The block device functions of `disk.h` (not among the sources) and
`malloc` are taken as parameters: their answers during one API call.
`block_disk_open name` tells whether `block_disk_open` succeeds,
`block_read i` is the block delivered by `block_read(i, buf)` or `none` when it
fails, `block_disk_count` is the `int` returned by `block_disk_count()`,
`block_disk_close` tells whether `block_disk_close` succeeds, and `malloc n`
is `none` for a `NULL` result or the arbitrary initial content of the fresh
buffer (byte `k` of the buffer is `g k % 256`). -/
structure Env where
  block_disk_open : String → Bool
  block_read : Nat → Option Block
  block_disk_count : Int
  block_disk_close : Bool
  malloc : Nat → Option (Nat → Nat)

/-! ## Global state -/

/-- The globals of `fs.c`.  `g_sb` holds the bytes of `superblock_t`, `g_fat`
is `none` for `NULL` and otherwise the bytes of the heap buffer, `g_root` holds
the bytes of `dir_entry_t g_root[FS_MAX_FILES]`. -/
structure FsState where
  g_mounted : Bool
  g_sb : List Nat
  g_fat : Option (List Nat)
  g_root : List Nat

/-- Result of an API call: return code, state afterwards, device calls made. -/
structure Outcome where
  ret : Int
  st : FsState
  ops : List DevOp

/-- The state at program start: static storage is zero-initialised. -/
def initState : FsState where
  g_mounted := false
  g_sb := List.replicate SUPERBLOCK_SIZE 0
  g_fat := none
  g_root := List.replicate (FS_MAX_FILES * DIR_ENTRY_SIZE) 0

/-! ## Byte-level readers -/

/-- The byte at offset `off`. -/
def rd8 (m : List Nat) (off : Nat) : Nat := m.getD off 0

/-- The `uint16_t` stored at offset `off`. -/
def rd16 (m : List Nat) (off : Nat) : Nat := rd8 m off + 256 * rd8 m (off + 1)

/-- The `uint32_t` stored at offset `off`. -/
def rd32 (m : List Nat) (off : Nat) : Nat := rd16 m off + 65536 * rd16 m (off + 2)

/-- Field `signature` of `superblock_t`. -/
def sb_signature (sb : List Nat) : List Nat := sb.take FS_SIGNATURE_LEN

/-- Field `total_blocks` of `superblock_t`. -/
def sb_total_blocks (sb : List Nat) : Nat := rd16 sb 8

/-- Field `root_dir_index` of `superblock_t`. -/
def sb_root_dir_index (sb : List Nat) : Nat := rd16 sb 10

/-- Field `data_start_index` of `superblock_t`. -/
def sb_data_start_index (sb : List Nat) : Nat := rd16 sb 12

/-- Field `data_block_count` of `superblock_t`. -/
def sb_data_block_count (sb : List Nat) : Nat := rd16 sb 14

/-- Field `fat_block_count` of `superblock_t`. -/
def sb_fat_block_count (sb : List Nat) : Nat := rd8 sb 16

/-- A decoded `dir_entry_t`. -/
structure DirEntry where
  filename : List Nat
  size : Nat
  first_data_index : Nat
  unused : List Nat
  deriving DecidableEq, Repr

/-- Slot `k` of a root directory image: `g_root[k]`. -/
def dir_entry (root : List Nat) (k : Nat) : DirEntry where
  filename := (root.drop (k * DIR_ENTRY_SIZE)).take FS_MAX_FILENAME
  size := rd32 root (k * DIR_ENTRY_SIZE + 16)
  first_data_index := rd16 root (k * DIR_ENTRY_SIZE + 20)
  unused := (root.drop (k * DIR_ENTRY_SIZE + 22)).take 10

/-- The read `g_fat[i]` on a buffer; `none` when it lies outside the buffer. -/
def fat_entry (buf : List Nat) (i : Nat) : Option Nat :=
  if 2 * i + 1 < buf.length then some (rd16 buf (2 * i)) else none

/-- The effect of `memcpy(dst + off, src, n)` on the bytes of `dst`. -/
def memcpy (dst : List Nat) (off : Nat) (src : List Nat) (n : Nat) : List Nat :=
  dst.take off ++ src.take n ++ dst.drop (off + n)

/-- The fresh buffer of `n` bytes whose arbitrary content is given by `g`. -/
def fresh_buffer (g : Nat → Nat) (n : Nat) : List Nat :=
  (List.range n).map (fun k => g k % 256)

/-! ## `read_fat`, `read_root_dir`, `unload_metadata` -/

/-- The loop of `read_fat`: `n` iterations remain, `b` is the loop counter,
`copied` the number of bytes copied so far, `buf` the content of `g_fat`.
Returns the return code, the buffer and the device calls. -/
def read_fat_loop (env : Env) (fat_bytes : Nat) :
    Nat → Nat → Nat → List Nat → Int × List Nat × List DevOp
  | 0, _, _, buf => (0, buf, [])
  | n + 1, b, copied, buf =>
    match env.block_read (1 + b) with
    | none => (-1, buf, [DevOp.block_read (1 + b)])
    | some block =>
      let to_cp := if fat_bytes - copied < BLOCK_SIZE then fat_bytes - copied else BLOCK_SIZE
      let r := read_fat_loop env fat_bytes n (b + 1) (copied + to_cp)
        (memcpy buf copied block.bytes to_cp)
      (r.1, r.2.1, DevOp.block_read (1 + b) :: r.2.2)

/-- The function `read_fat`. -/
def read_fat (env : Env) (s : FsState) : Outcome :=
  let fat_bytes := sb_data_block_count s.g_sb * 2
  match env.malloc fat_bytes with
  | none => ⟨-1, { s with g_fat := none }, []⟩
  | some g =>
    let r := read_fat_loop env fat_bytes (sb_fat_block_count s.g_sb) 0 0 (fresh_buffer g fat_bytes)
    ⟨r.1, { s with g_fat := some r.2.1 }, r.2.2⟩

/-- The function `read_root_dir`. -/
def read_root_dir (env : Env) (s : FsState) : Outcome :=
  match env.block_read (sb_root_dir_index s.g_sb) with
  | none => ⟨-1, s, [DevOp.block_read (sb_root_dir_index s.g_sb)]⟩
  | some block => ⟨0, { s with g_root := block.bytes }, [DevOp.block_read (sb_root_dir_index s.g_sb)]⟩

/-- The function `unload_metadata`. -/
def unload_metadata (_s : FsState) : FsState where
  g_fat := none
  g_sb := List.replicate SUPERBLOCK_SIZE 0
  g_root := List.replicate (FS_MAX_FILES * DIR_ENTRY_SIZE) 0
  g_mounted := false

/-! ## `fs_mount`, `fs_umount`, `fs_info` -/

/-- The label `fail` of `fs_mount`, reached after the device calls `ops`. -/
def mount_fail (s : FsState) (ops : List DevOp) : Outcome :=
  ⟨-1, unload_metadata s, ops ++ [DevOp.disk_close]⟩

/-- The function `fs_mount`; `diskname = none` is the null pointer. -/
def fs_mount (env : Env) (s : FsState) (diskname : Option String) : Outcome :=
  match diskname with
  | none => ⟨-1, s, []⟩
  | some name =>
    if s.g_mounted then ⟨-1, s, []⟩
    else if !env.block_disk_open name then ⟨-1, s, [DevOp.disk_open name]⟩
    else
      match env.block_read 0 with
      | none => mount_fail s [DevOp.disk_open name, DevOp.block_read 0]
      | some block0 =>
        let s1 : FsState := { s with g_sb := block0.bytes }
        let ops1 := [DevOp.disk_open name, DevOp.block_read 0]
        if sb_signature s1.g_sb ≠ FS_SIGNATURE then mount_fail s1 ops1
        else
          let computed_total :=
            (1 + sb_fat_block_count s1.g_sb + 1 + sb_data_block_count s1.g_sb) % 65536
          if computed_total ≠ sb_total_blocks s1.g_sb then mount_fail s1 ops1
          else
            let disk_blocks : Int := env.block_disk_count
            let ops2 := ops1 ++ [DevOp.disk_count]
            if disk_blocks ≠ (sb_total_blocks s1.g_sb : Int) then mount_fail s1 ops2
            else
              let r1 := read_fat env s1
              if r1.ret < 0 then mount_fail r1.st (ops2 ++ r1.ops)
              else
                let r2 := read_root_dir env r1.st
                if r2.ret < 0 then mount_fail r2.st (ops2 ++ r1.ops ++ r2.ops)
                else ⟨0, { r2.st with g_mounted := true }, ops2 ++ r1.ops ++ r2.ops⟩

/-- The function `fs_umount`. -/
def fs_umount (env : Env) (s : FsState) : Outcome :=
  if !s.g_mounted then ⟨-1, s, []⟩
  else
    let s1 := unload_metadata s
    if !env.block_disk_close then ⟨-1, s1, [DevOp.disk_close]⟩
    else ⟨0, s1, [DevOp.disk_close]⟩

/-- The numbers printed by `fs_info`, one field per `printf` line; a ratio is
the pair of the two numbers printed around the slash. -/
structure FsInfoOut where
  total_blk_count : Nat
  fat_blk_count : Nat
  rdir_blk : Nat
  data_blk : Nat
  data_blk_count : Nat
  fat_free_ratio : Nat × Nat
  rdir_free_ratio : Nat × Nat
  deriving DecidableEq, Repr

/-- The first loop of `fs_info`: `n` iterations remain, `i` is the loop
counter, `free_fat` the running count.  `none` when `g_fat[i]` is read outside
the buffer. -/
def fat_free_loop (buf : List Nat) : Nat → Nat → Nat → Option Nat
  | 0, _, free_fat => some free_fat
  | n + 1, i, free_fat =>
    match fat_entry buf i with
    | none => none
    | some v => fat_free_loop buf n (i + 1) (if v = 0 then free_fat + 1 else free_fat)

/-- The second loop of `fs_info`: `n` iterations remain, `i` is the loop
counter, `free_rdir` the running count. -/
def rdir_free_loop (root : List Nat) : Nat → Nat → Nat → Nat
  | 0, _, free_rdir => free_rdir
  | n + 1, i, free_rdir =>
    rdir_free_loop root n (i + 1)
      (if rd8 root (i * DIR_ENTRY_SIZE) = 0 then free_rdir + 1 else free_rdir)

/-- Result of `fs_info`: return code, state afterwards, printed numbers. -/
structure InfoResult where
  ret : Int
  st : FsState
  out : Option FsInfoOut

/-- The bytes readable through `g_fat`: none at all through a null pointer. -/
def fat_bytes_of (g_fat : Option (List Nat)) : List Nat :=
  match g_fat with
  | none => []
  | some buf => buf

/-- The function `fs_info`.  The result is `none` when the function reads
`g_fat` through a null pointer or outside its buffer. -/
def fs_info (s : FsState) : Option InfoResult :=
  if !s.g_mounted then some ⟨-1, s, none⟩
  else
    match fat_free_loop (fat_bytes_of s.g_fat) (sb_data_block_count s.g_sb - 1) 1 0 with
    | none => none
    | some free_fat =>
      some ⟨0, s, some
        { total_blk_count := sb_total_blocks s.g_sb
          fat_blk_count := sb_fat_block_count s.g_sb
          rdir_blk := sb_root_dir_index s.g_sb
          data_blk := sb_data_start_index s.g_sb
          data_blk_count := sb_data_block_count s.g_sb
          fat_free_ratio := (free_fat, sb_data_block_count s.g_sb)
          rdir_free_ratio := (rdir_free_loop s.g_root FS_MAX_FILES 0 0, FS_MAX_FILES) }⟩

/-! ## The unimplemented operations -/

/-- The function `fs_create`; `filename = none` is the null pointer. -/
def fs_create (s : FsState) (_filename : Option String) : Outcome := ⟨-1, s, []⟩

/-- The function `fs_delete`. -/
def fs_delete (s : FsState) (_filename : Option String) : Outcome := ⟨-1, s, []⟩

/-- The function `fs_ls`. -/
def fs_ls (s : FsState) : Outcome := ⟨-1, s, []⟩

/-- The function `fs_open`. -/
def fs_open (s : FsState) (_filename : Option String) : Outcome := ⟨-1, s, []⟩

/-- The function `fs_close`. -/
def fs_close (s : FsState) (_fd : Int) : Outcome := ⟨-1, s, []⟩

/-- The function `fs_stat`. -/
def fs_stat (s : FsState) (_fd : Int) : Outcome := ⟨-1, s, []⟩

/-- The function `fs_lseek`. -/
def fs_lseek (s : FsState) (_fd : Int) (_offset : Nat) : Outcome := ⟨-1, s, []⟩

/-- The function `fs_write`; `buf = none` is the null pointer. -/
def fs_write (s : FsState) (_fd : Int) (_buf : Option (List Nat)) (_count : Nat) : Outcome :=
  ⟨-1, s, []⟩

/-- The function `fs_read`; `buf = none` is the null pointer. -/
def fs_read (s : FsState) (_fd : Int) (_buf : Option (List Nat)) (_count : Nat) : Outcome :=
  ⟨-1, s, []⟩

/-! ## Sequences of API calls -/

/-- One call of the API, with the answers of the environment during it. -/
inductive Call where
  | mount (env : Env) (diskname : Option String)
  | umount (env : Env)
  | info
  | create (filename : Option String)
  | delete (filename : Option String)
  | ls
  | open_file (filename : Option String)
  | close (fd : Int)
  | stat (fd : Int)
  | lseek (fd : Int) (offset : Nat)
  | write (fd : Int) (buf : Option (List Nat)) (count : Nat)
  | read (fd : Int) (buf : Option (List Nat)) (count : Nat)

/-- Run one call; `none` when the call has no defined behaviour. -/
def apply_call (s : FsState) : Call → Option Outcome
  | Call.mount env diskname => some (fs_mount env s diskname)
  | Call.umount env => some (fs_umount env s)
  | Call.info => (fs_info s).map (fun r => ⟨r.ret, r.st, []⟩)
  | Call.create filename => some (fs_create s filename)
  | Call.delete filename => some (fs_delete s filename)
  | Call.ls => some (fs_ls s)
  | Call.open_file filename => some (fs_open s filename)
  | Call.close fd => some (fs_close s fd)
  | Call.stat fd => some (fs_stat s fd)
  | Call.lseek fd offset => some (fs_lseek s fd offset)
  | Call.write fd buf count => some (fs_write s fd buf count)
  | Call.read fd buf count => some (fs_read s fd buf count)

/-- The states the program can be in: the initial state and every state after
a sequence of API calls, whatever the environment answers. -/
inductive Reachable : FsState → Prop where
  | init : Reachable initState
  | step {s : FsState} {r : Outcome} (c : Call) :
      Reachable s → apply_call s c = some r → Reachable r.st

/-! ## Disk images -/

/-- The block that starts with the bytes `pre` (reduced to bytes, cut at the
block size) and is zero-filled after them. -/
def Block.ofBytes (pre : List Nat) : Block where
  bytes := ((pre.map (fun x => x % 256)) ++ List.replicate BLOCK_SIZE 0).take BLOCK_SIZE
  size_eq := by
    rw [List.length_take, List.length_append, List.length_replicate]
    omega
  byte_lt := by
    intro x hx
    have hx2 := List.mem_of_mem_take hx
    rcases List.mem_append.mp hx2 with h | h
    · obtain ⟨y, _, rfl⟩ := List.mem_map.mp h
      exact Nat.mod_lt _ (by decide)
    · rw [(List.mem_replicate.mp h).2]
      decide

/-- The two bytes of a 16-bit value, in memory order. -/
def le16 (v : Nat) : List Nat := [v % 256, v / 256 % 256]

/-- The first bytes of a superblock with the given fields. -/
def superblock_bytes (sig : List Nat) (total root data_start dbc fat : Nat) : List Nat :=
  sig ++ le16 total ++ le16 root ++ le16 data_start ++ le16 dbc ++ [fat % 256]

/-- Modelled from the spec: a block device (section 6, block device boundary;
`disk.c` is not among the sources) that holds the image `blocks` and works: it
opens under every name, reads exactly the blocks of the image, counts them and
closes; `malloc` succeeds and the fresh memory holds `garbage`. -/
def Env.ofImage (blocks : List Block) (garbage : Nat → Nat) : Env where
  block_disk_open := fun _ => true
  block_read := fun i => blocks.get? i
  block_disk_count := blocks.length
  block_disk_close := true
  malloc := fun _ => some garbage

/-! ## Predicates used in the statements -/

/-- The state a successful mount of a superblock `sb` builds from the FAT
buffer `fat` and the root directory block `root`. -/
def mounted_state (sb fat root : List Nat) : FsState where
  g_mounted := true
  g_sb := sb
  g_fat := some fat
  g_root := root

/-- What holds in every state the program can be in: unmounted means pristine,
mounted means that the FAT buffer exists with two bytes per data block and that
superblock and root directory each hold one block. -/
def Inv (s : FsState) : Prop :=
  (s.g_mounted = false → s = initState) ∧
  (s.g_mounted = true → ∃ buf, s.g_fat = some buf ∧
    buf.length = sb_data_block_count s.g_sb * 2 ∧
    s.g_sb.length = BLOCK_SIZE ∧ s.g_root.length = BLOCK_SIZE)

/-- The bytes of device blocks `1 .. n` one after the other (a block that is
not delivered contributes nothing). -/
def fat_region (env : Env) : Nat → List Nat
  | 0 => []
  | n + 1 =>
    fat_region env n ++
      (match env.block_read (1 + n) with
        | some block => block.bytes
        | none => [])

/-- Slot `k` of a root directory is free: its filename starts with NUL. -/
def slot_is_free (root : List Nat) (k : Nat) : Bool :=
  (dir_entry root k).filename.head? == some 0

/-- The environment serves a valid image under `name`: the device opens,
block 0 carries the signature, `total_blocks` is the integer sum
`1 + fat_block_count + 1 + data_block_count` and the number of blocks the
device reports, the FAT blocks and the root directory block are delivered, and
the FAT buffer is allocated. -/
def ServesValidImage (env : Env) (name : String) : Prop :=
  env.block_disk_open name = true ∧
  ∃ block0, env.block_read 0 = some block0 ∧
    sb_signature block0.bytes = FS_SIGNATURE ∧
    sb_total_blocks block0.bytes =
      1 + sb_fat_block_count block0.bytes + 1 + sb_data_block_count block0.bytes ∧
    env.block_disk_count = (sb_total_blocks block0.bytes : Int) ∧
    (env.malloc (sb_data_block_count block0.bytes * 2)).isSome = true ∧
    ∀ i, (1 ≤ i ∧ i ≤ sb_fat_block_count block0.bytes) ∨
      i = sb_root_dir_index block0.bytes → (env.block_read i).isSome = true

/-- A filename `fs_create` is specified to accept in the directory `root`:
not empty, at most `FS_MAX_FILENAME` bytes with the terminating NUL, and not
the name of an occupied slot; and some slot of `root` is free. -/
def creatable (root : List Nat) (name : String) : Prop :=
  0 < name.length ∧ name.length + 1 ≤ FS_MAX_FILENAME ∧
  (∀ k, k < FS_MAX_FILES → slot_is_free root k = false →
    (dir_entry root k).filename ≠
      (name.toList.map Char.toNat ++ List.replicate FS_MAX_FILENAME 0).take FS_MAX_FILENAME) ∧
  ∃ k, k < FS_MAX_FILES ∧ slot_is_free root k = true

/-! ## Concrete disk images and environments -/

/-- A disk name. -/
def disk_name : String := "disk.fs"

/-- No garbage: fresh memory that happens to be zero. -/
def zero_garbage : Nat → Nat := fun _ => 0

/-- Superblock of a six-block image: one FAT block, root directory in block 2,
three data blocks from block 3 on. -/
def sb_small : Block := Block.ofBytes (superblock_bytes FS_SIGNATURE 6 2 3 3 1)

/-- FAT block with the entries 0, 0 and `FAT_EOC`. -/
def fat_small : Block := Block.ofBytes [0, 0, 0, 0, 255, 255]

/-- Root directory block whose slot 0 holds the empty file "a" and whose other
slots are free. -/
def root_small : Block :=
  Block.ofBytes ([97] ++ List.replicate 15 0 ++ [0, 0, 0, 0] ++ [255, 255])

/-- The six-block image. -/
def image_small : List Block :=
  [sb_small, fat_small, root_small, Block.ofBytes [], Block.ofBytes [], Block.ofBytes []]

/-- The state after mounting `image_small` at program start. -/
def state_small : FsState :=
  (fs_mount (Env.ofImage image_small zero_garbage) initState (some disk_name)).st

/-- Superblock of a one-block image that announces 65535 data blocks, no FAT
block and one block in total; the root directory index is 0. -/
def sb_wrap : Block := Block.ofBytes (superblock_bytes FS_SIGNATURE 1 0 0 65535 0)

/-- The one-block image. -/
def image_wrap : List Block := [sb_wrap]

/-- The device with the six-block image on which reading block 1, the FAT
block, fails. -/
def env_fat_unreadable : Env where
  block_disk_open := fun _ => true
  block_read := fun i => if i = 1 then none else image_small.get? i
  block_disk_count := 6
  block_disk_close := true
  malloc := fun _ => some zero_garbage

/-- Superblock of a six-block image like `sb_small`, except that its root
directory index is 3 instead of 2. -/
def sb_shifted : Block := Block.ofBytes (superblock_bytes FS_SIGNATURE 6 3 3 3 1)

/-- The six-block image with the shifted root directory index; block 2, right
after the FAT, still holds the directory with the file "a". -/
def image_shifted : List Block :=
  [sb_shifted, fat_small, root_small, Block.ofBytes [], Block.ofBytes [], Block.ofBytes []]

/-- Superblock of a four-block image: no FAT block, root directory in block 1,
two data blocks from block 2 on. -/
def sb_nofat : Block := Block.ofBytes (superblock_bytes FS_SIGNATURE 4 1 2 2 0)

/-- The four-block image without FAT block. -/
def image_nofat : List Block :=
  [sb_nofat, Block.ofBytes [], Block.ofBytes [], Block.ofBytes []]

/-- Fresh memory that still holds the byte 0xAB everywhere. -/
def stale_garbage : Nat → Nat := fun _ => 0xAB

/-- The device with the six-block image whose `block_disk_close` fails. -/
def env_close_fails : Env where
  block_disk_open := fun _ => true
  block_read := fun i => image_small.get? i
  block_disk_count := 6
  block_disk_close := false
  malloc := fun _ => some zero_garbage

/-- A filename that is not in the root directory of the six-block image. -/
def new_name : String := "b"

/-! ## Basic facts -/

theorem FS_SIGNATURE_eq : FS_SIGNATURE = FS_SIGNATURE_STR.toList.map Char.toNat := by decide

theorem unload_metadata_eq (s : FsState) : unload_metadata s = initState := rfl

theorem mount_fail_ret (s : FsState) (ops : List DevOp) : (mount_fail s ops).ret = -1 := rfl

theorem mount_fail_st (s : FsState) (ops : List DevOp) : (mount_fail s ops).st = initState := rfl

theorem fresh_buffer_length (g : Nat → Nat) (n : Nat) : (fresh_buffer g n).length = n := by
  simp [fresh_buffer]

theorem memcpy_length (dst src : List Nat) (off n : Nat) (h1 : off + n ≤ dst.length)
    (h2 : n ≤ src.length) : (memcpy dst off src n).length = dst.length := by
  simp only [memcpy, List.length_append, List.length_take, List.length_drop]
  omega

/-- The loop of `read_fat` returns 0 or -1. -/
theorem read_fat_loop_ret (env : Env) (fb : Nat) :
    ∀ (n b c : Nat) (buf : List Nat),
      (read_fat_loop env fb n b c buf).1 = 0 ∨ (read_fat_loop env fb n b c buf).1 = -1 := by
  intro n
  induction n with
  | zero => intro b c buf; exact Or.inl rfl
  | succ n ih =>
    intro b c buf
    simp only [read_fat_loop]
    cases h : env.block_read (1 + b) with
    | none => exact Or.inr rfl
    | some block => exact ih _ _ _

/-- The loop of `read_fat` returns 0 exactly when every block it asks for is
delivered. -/
theorem read_fat_loop_ok_iff (env : Env) (fb : Nat) :
    ∀ (n b c : Nat) (buf : List Nat),
      (read_fat_loop env fb n b c buf).1 = 0 ↔
        ∀ k, k < n → (env.block_read (1 + b + k)).isSome = true := by
  intro n
  induction n with
  | zero => intro b c buf; simp [read_fat_loop]
  | succ n ih =>
    intro b c buf
    simp only [read_fat_loop]
    cases h : env.block_read (1 + b) with
    | none =>
      simp only [Int.reduceNeg, Int.neg_eq_zero, one_ne_zero, false_iff, not_forall]
      exact ⟨0, Nat.succ_pos n, by simp [h]⟩
    | some block =>
      simp only []
      rw [ih]
      constructor
      · intro hk k hlt
        cases k with
        | zero => simp [h]
        | succ k =>
          have := hk k (by omega)
          rw [show 1 + b + (k + 1) = 1 + (b + 1) + k by omega]
          exact this
      · intro hk k hlt
        have := hk (k + 1) (by omega)
        rw [show 1 + (b + 1) + k = 1 + b + (k + 1) by omega]
        exact this

/-- The loop of `read_fat` never changes the size of the buffer. -/
theorem read_fat_loop_length (env : Env) (fb : Nat) :
    ∀ (n b c : Nat) (buf : List Nat), c ≤ fb → buf.length = fb →
      (read_fat_loop env fb n b c buf).2.1.length = fb := by
  intro n
  induction n with
  | zero => intro b c buf _ hl; exact hl
  | succ n ih =>
    intro b c buf hc hl
    simp only [read_fat_loop]
    cases h : env.block_read (1 + b) with
    | none => exact hl
    | some block =>
      simp only []
      have hbs := block.size_eq
      apply ih
      · split_ifs <;> omega
      · rw [memcpy_length, hl]
        · rw [hl]; split_ifs <;> omega
        · rw [hbs]; split_ifs <;> omega

theorem read_fat_none (env : Env) (s : FsState)
    (h : env.malloc (sb_data_block_count s.g_sb * 2) = none) :
    read_fat env s = ⟨-1, { s with g_fat := none }, []⟩ := by
  simp only [read_fat, h]

theorem read_fat_some (env : Env) (s : FsState) (g : Nat → Nat)
    (h : env.malloc (sb_data_block_count s.g_sb * 2) = some g) :
    read_fat env s =
      ⟨(read_fat_loop env (sb_data_block_count s.g_sb * 2) (sb_fat_block_count s.g_sb) 0 0
          (fresh_buffer g (sb_data_block_count s.g_sb * 2))).1,
        { s with g_fat := some (read_fat_loop env (sb_data_block_count s.g_sb * 2)
          (sb_fat_block_count s.g_sb) 0 0
          (fresh_buffer g (sb_data_block_count s.g_sb * 2))).2.1 },
        (read_fat_loop env (sb_data_block_count s.g_sb * 2) (sb_fat_block_count s.g_sb) 0 0
          (fresh_buffer g (sb_data_block_count s.g_sb * 2))).2.2⟩ := by
  simp only [read_fat, h]

/-- The function `read_fat` returns 0 or -1. -/
theorem read_fat_ret (env : Env) (s : FsState) :
    (read_fat env s).ret = 0 ∨ (read_fat env s).ret = -1 := by
  cases h : env.malloc (sb_data_block_count s.g_sb * 2) with
  | none => rw [read_fat_none env s h]; exact Or.inr rfl
  | some g => rw [read_fat_some env s g h]; exact read_fat_loop_ret _ _ _ _ _ _

/-- Every return of `fs_mount`: refused without touching anything, failed
through the label `fail`, or succeeded after every check passed. -/
theorem fs_mount_cases (env : Env) (s : FsState) (dn : Option String) :
    ((fs_mount env s dn).ret = -1 ∧ (fs_mount env s dn).st = s) ∨
    ((fs_mount env s dn).ret = -1 ∧ (fs_mount env s dn).st = initState) ∨
    ((fs_mount env s dn).ret = 0 ∧ s.g_mounted = false ∧
      ∃ name block0 g rootblk,
        dn = some name ∧ env.block_disk_open name = true ∧
        env.block_read 0 = some block0 ∧
        sb_signature block0.bytes = FS_SIGNATURE ∧
        (1 + sb_fat_block_count block0.bytes + 1 + sb_data_block_count block0.bytes) % 65536
          = sb_total_blocks block0.bytes ∧
        env.block_disk_count = (sb_total_blocks block0.bytes : Int) ∧
        env.malloc (sb_data_block_count block0.bytes * 2) = some g ∧
        (read_fat_loop env (sb_data_block_count block0.bytes * 2)
          (sb_fat_block_count block0.bytes) 0 0
          (fresh_buffer g (sb_data_block_count block0.bytes * 2))).1 = 0 ∧
        env.block_read (sb_root_dir_index block0.bytes) = some rootblk ∧
        (fs_mount env s dn).st = mounted_state block0.bytes
          (read_fat_loop env (sb_data_block_count block0.bytes * 2)
            (sb_fat_block_count block0.bytes) 0 0
            (fresh_buffer g (sb_data_block_count block0.bytes * 2))).2.1
          rootblk.bytes) := by
  cases dn with
  | none => exact Or.inl ⟨rfl, rfl⟩
  | some name =>
    simp only [fs_mount]
    by_cases hm : s.g_mounted = true
    · simp [hm]
    · simp only [hm, Bool.false_eq_true, if_false]
      by_cases ho : env.block_disk_open name = true
      swap
      · simp [ho]
      · simp only [ho, Bool.not_true, Bool.false_eq_true, if_false]
        cases h0 : env.block_read 0 with
        | none => exact Or.inr (Or.inl ⟨rfl, rfl⟩)
        | some block0 =>
          simp only []
          by_cases hsig : sb_signature block0.bytes = FS_SIGNATURE
          swap
          · simp only [ne_eq, hsig, not_false_eq_true, if_true]
            exact Or.inr (Or.inl ⟨rfl, rfl⟩)
          simp only [ne_eq, hsig, not_true_eq_false, if_false]
          by_cases hgeo : (1 + sb_fat_block_count block0.bytes + 1
              + sb_data_block_count block0.bytes) % 65536 = sb_total_blocks block0.bytes
          swap
          · simp only [hgeo, not_false_eq_true, if_true]
            exact Or.inr (Or.inl ⟨rfl, rfl⟩)
          simp only [hgeo, not_true_eq_false, if_false]
          by_cases hcnt : env.block_disk_count = (sb_total_blocks block0.bytes : Int)
          swap
          · simp only [hcnt, not_false_eq_true, if_true]
            exact Or.inr (Or.inl ⟨rfl, rfl⟩)
          simp only [hcnt, not_true_eq_false, if_false]
          by_cases hrf : (read_fat env ⟨false, block0.bytes, s.g_fat, s.g_root⟩).ret < 0
          · simp only [hrf, if_true]
            exact Or.inr (Or.inl ⟨rfl, rfl⟩)
          simp only [hrf, if_false]
          have hrf0 : (read_fat env ⟨false, block0.bytes, s.g_fat, s.g_root⟩).ret = 0 := by
            rcases read_fat_ret env ⟨false, block0.bytes, s.g_fat, s.g_root⟩ with h | h
            · exact h
            · rw [h] at hrf; exact absurd (by decide) hrf
          cases hg : env.malloc (sb_data_block_count block0.bytes * 2) with
          | none =>
            rw [read_fat_none env _ hg] at hrf0
            simp at hrf0
          | some g =>
            rw [read_fat_some env _ g hg] at hrf0 ⊢
            unfold read_root_dir
            cases hr : env.block_read (sb_root_dir_index block0.bytes) with
            | none =>
              simp only [Int.reduceNeg, Int.reduceLT, if_true]
              exact Or.inr (Or.inl ⟨rfl, rfl⟩)
            | some rootblk =>
              simp only [lt_self_iff_false, if_false]
              simp only [] at hrf0
              refine Or.inr (Or.inr ⟨?_, ?_, name, block0, g, rootblk, ?_⟩)
              · trivial
              · trivial
              · simp only [mounted_state]
                simp [ho, hsig, hgeo, hcnt, hg, hrf0, hr]

/-- A mount whose every step succeeds returns 0 and builds the mounted state. -/
theorem fs_mount_ok (env : Env) (s : FsState) (name : String) (block0 rootblk : Block)
    (g : Nat → Nat) (hm : s.g_mounted = false)
    (ho : env.block_disk_open name = true)
    (h0 : env.block_read 0 = some block0)
    (hsig : sb_signature block0.bytes = FS_SIGNATURE)
    (hgeo : (1 + sb_fat_block_count block0.bytes + 1 + sb_data_block_count block0.bytes) % 65536
      = sb_total_blocks block0.bytes)
    (hcnt : env.block_disk_count = (sb_total_blocks block0.bytes : Int))
    (hg : env.malloc (sb_data_block_count block0.bytes * 2) = some g)
    (hloop : (read_fat_loop env (sb_data_block_count block0.bytes * 2)
      (sb_fat_block_count block0.bytes) 0 0
      (fresh_buffer g (sb_data_block_count block0.bytes * 2))).1 = 0)
    (hr : env.block_read (sb_root_dir_index block0.bytes) = some rootblk) :
    (fs_mount env s (some name)).ret = 0 ∧
    (fs_mount env s (some name)).st = mounted_state block0.bytes
      (read_fat_loop env (sb_data_block_count block0.bytes * 2)
        (sb_fat_block_count block0.bytes) 0 0
        (fresh_buffer g (sb_data_block_count block0.bytes * 2))).2.1
      rootblk.bytes := by
  have hrf := read_fat_some env ⟨false, block0.bytes, s.g_fat, s.g_root⟩ g hg
  simp only [] at hrf
  simp only [fs_mount, hm, ho, h0, hsig, hgeo, hcnt, hrf, hloop, read_root_dir, hr, mounted_state]
  simp

/-- The function `fs_mount` returns 0 or -1. -/
theorem fs_mount_ret (env : Env) (s : FsState) (dn : Option String) :
    (fs_mount env s dn).ret = 0 ∨ (fs_mount env s dn).ret = -1 := by
  rcases fs_mount_cases env s dn with h | h | h
  · exact Or.inr h.1
  · exact Or.inr h.1
  · exact Or.inl h.1

/-- The function `fs_info` never changes the state. -/
theorem fs_info_st (s : FsState) (r : InfoResult) (h : fs_info s = some r) : r.st = s := by
  unfold fs_info at h
  split_ifs at h with hm
  · cases h; rfl
  · cases hl : fat_free_loop (fat_bytes_of s.g_fat) (sb_data_block_count s.g_sb - 1) 1 0 with
    | none => rw [hl] at h; cases h
    | some v => rw [hl] at h; cases h; rfl

theorem inv_init : Inv initState := by
  constructor
  · intro _; rfl
  · intro h; cases h

theorem inv_mount (env : Env) (s : FsState) (dn : Option String) (h : Inv s) :
    Inv (fs_mount env s dn).st := by
  rcases fs_mount_cases env s dn with ⟨_, h1⟩ | ⟨_, h1⟩ | ⟨_, _, name, block0, g, rootblk, hc⟩
  · rw [h1]; exact h
  · rw [h1]; exact inv_init
  · obtain ⟨_, _, _, _, _, _, _, _, _, hst⟩ := hc
    rw [hst]
    constructor
    · intro hc; cases hc
    · intro _
      refine ⟨_, rfl, ?_, block0.size_eq, rootblk.size_eq⟩
      exact read_fat_loop_length env _ _ _ _ _ (Nat.zero_le _) (fresh_buffer_length _ _)

theorem inv_umount (env : Env) (s : FsState) (h : Inv s) : Inv (fs_umount env s).st := by
  unfold fs_umount
  split_ifs
  · exact h
  · exact inv_init
  · exact inv_init

/-- Every reachable state satisfies the invariant. -/
theorem reachable_inv (s : FsState) (h : Reachable s) : Inv s := by
  induction h with
  | init => exact inv_init
  | step c _ hc ih =>
    cases c with
    | mount env dn => cases hc; exact inv_mount env _ dn ih
    | umount env => cases hc; exact inv_umount env _ ih
    | info =>
      simp only [apply_call] at hc
      cases hi : fs_info _ with
      | none => rw [hi] at hc; cases hc
      | some r0 =>
        rw [hi] at hc
        cases hc
        rw [show (Outcome.mk r0.ret r0.st []).st = r0.st from rfl, fs_info_st _ _ hi]
        exact ih
    | create _ => cases hc; exact ih
    | delete _ => cases hc; exact ih
    | ls => cases hc; exact ih
    | open_file _ => cases hc; exact ih
    | close _ => cases hc; exact ih
    | stat _ => cases hc; exact ih
    | lseek _ _ => cases hc; exact ih
    | write _ _ _ => cases hc; exact ih
    | read _ _ _ => cases hc; exact ih

/-! ## The content of the FAT buffer -/

theorem memcpy_getElem? (dst src : List Nat) (off n j : Nat) (h1 : off ≤ dst.length)
    (h2 : n ≤ src.length) :
    (memcpy dst off src n)[j]? =
      if j < off then dst[j]? else if j < off + n then src[j - off]? else dst[j]? := by
  have hl1 : (dst.take off).length = off := by rw [List.length_take]; omega
  have hl2 : (src.take n).length = n := by rw [List.length_take]; omega
  unfold memcpy
  by_cases hj : j < off
  · rw [if_pos hj, List.append_assoc, List.getElem?_append_left (by omega),
      List.getElem?_take_of_lt hj]
  · rw [if_neg hj]
    by_cases hj2 : j < off + n
    · rw [if_pos hj2, List.getElem?_append_left (by rw [List.length_append]; omega),
        List.getElem?_append_right (by omega), hl1, List.getElem?_take_of_lt (by omega)]
    · rw [if_neg hj2, List.getElem?_append_right (by rw [List.length_append]; omega),
        List.length_append, hl1, hl2, List.getElem?_drop]
      congr 1
      omega

theorem fat_region_length (env : Env) :
    ∀ n, (∀ k, k < n → (env.block_read (1 + k)).isSome = true) →
      (fat_region env n).length = n * BLOCK_SIZE := by
  intro n
  induction n with
  | zero => intro _; simp [fat_region]
  | succ n ih =>
    intro h
    obtain ⟨blk, hb⟩ := Option.isSome_iff_exists.mp (h n (Nat.lt_succ_self n))
    simp only [fat_region, hb, List.length_append, ih (fun k hk => h k (by omega)), blk.size_eq]
    ring

/-- What the loop of `read_fat` leaves in the buffer: the bytes of the FAT
blocks as far as they reach, and behind them what was there before. -/
theorem read_fat_loop_content (env : Env) (fb : Nat) (init : List Nat) :
    ∀ (n b c : Nat) (buf : List Nat),
      (read_fat_loop env fb n b c buf).1 = 0 →
      buf.length = fb → c = min fb (b * BLOCK_SIZE) →
      (fat_region env b).length = b * BLOCK_SIZE →
      (∀ j, j < c → buf[j]? = (fat_region env b)[j]?) →
      (∀ j, c ≤ j → buf[j]? = init[j]?) →
      (∀ j, j < min fb ((b + n) * BLOCK_SIZE) →
        (read_fat_loop env fb n b c buf).2.1[j]? = (fat_region env (b + n))[j]?) ∧
      (∀ j, min fb ((b + n) * BLOCK_SIZE) ≤ j →
        (read_fat_loop env fb n b c buf).2.1[j]? = init[j]?) := by
  intro n
  induction n with
  | zero =>
    intro b c buf _ _ hc _ hlo hhi
    rw [Nat.add_zero, ← hc]
    exact ⟨hlo, hhi⟩
  | succ n ih =>
    intro b c buf hok hlen hc hreg hlo hhi
    simp only [read_fat_loop] at hok ⊢
    cases hb : env.block_read (1 + b) with
    | none => rw [hb] at hok; simp at hok
    | some blk =>
      rw [hb] at hok
      simp only [] at hok ⊢
      have hbs := blk.size_eq
      have hreg1 : fat_region env (b + 1) = fat_region env b ++ blk.bytes := by
        rw [show b + 1 = b.succ from rfl]
        simp only [fat_region, hb]
      have hcfb : c ≤ fb := by rw [hc]; exact Nat.min_le_left _ _
      have hc' : (c + if fb - c < BLOCK_SIZE then fb - c else BLOCK_SIZE)
          = min fb ((b + 1) * BLOCK_SIZE) := by
        rw [hc, Nat.add_mul]
        split_ifs <;> omega
      have htc : (if fb - c < BLOCK_SIZE then fb - c else BLOCK_SIZE) ≤ blk.bytes.length := by
        rw [hbs]; split_ifs <;> omega
      have hih := ih (b + 1) _ _ hok
        (by rw [memcpy_length _ _ _ _ (by rw [hlen]; split_ifs <;> omega) htc, hlen])
        hc'
        (by rw [hreg1, List.length_append, hreg, hbs]; ring)
        (by
          intro j hj
          rw [memcpy_getElem? _ _ _ _ _ (by omega) htc, hreg1]
          by_cases hjc : j < c
          · rw [if_pos hjc, hlo j hjc, List.getElem?_append_left (by rw [hreg]; omega)]
          · rw [if_neg hjc, if_pos hj, List.getElem?_append_right (by rw [hreg]; omega), hreg]
            have hcb : c = b * BLOCK_SIZE := by
              rw [hc'] at hj
              omega
            rw [hcb])
        (by
          intro j hj
          rw [memcpy_getElem? _ _ _ _ _ (by omega) htc, if_neg (by omega), if_neg (by omega)]
          exact hhi j (by omega))
      rw [show b + (n + 1) = b + 1 + n by omega]
      exact hih

/-- The FAT a successful mount leaves in memory: two bytes per data block;
entry `i` is the 16-bit value at offset `2 * i` of the FAT blocks where they
reach that far, and otherwise what the fresh buffer held. -/
theorem fs_mount_loads_fat (env : Env) (s : FsState) (dn : Option String)
    (h : (fs_mount env s dn).ret = 0) :
    ∃ block0 g buf,
      env.block_read 0 = some block0 ∧
      (fs_mount env s dn).st.g_sb = block0.bytes ∧
      env.malloc (sb_data_block_count block0.bytes * 2) = some g ∧
      (fs_mount env s dn).st.g_fat = some buf ∧
      buf.length = sb_data_block_count block0.bytes * 2 ∧
      (∀ i, i < sb_data_block_count block0.bytes →
        2 * i < sb_fat_block_count block0.bytes * BLOCK_SIZE →
        fat_entry buf i =
          some (rd16 (fat_region env (sb_fat_block_count block0.bytes)) (2 * i))) ∧
      (∀ i, i < sb_data_block_count block0.bytes →
        sb_fat_block_count block0.bytes * BLOCK_SIZE ≤ 2 * i →
        fat_entry buf i =
          some (rd16 (fresh_buffer g (sb_data_block_count block0.bytes * 2)) (2 * i))) := by
  rcases fs_mount_cases env s dn with ⟨h1, _⟩ | ⟨h1, _⟩ | ⟨_, _, n, b0, g, rb, hc⟩
  · rw [h1] at h; cases h
  · rw [h1] at h; cases h
  · obtain ⟨_, _, hb, _, _, _, hg, hloop, _, hst⟩ := hc
    have hlen := read_fat_loop_length env (sb_data_block_count b0.bytes * 2)
      (sb_fat_block_count b0.bytes) 0 0 (fresh_buffer g (sb_data_block_count b0.bytes * 2))
      (Nat.zero_le _) (fresh_buffer_length _ _)
    have hcont := read_fat_loop_content env (sb_data_block_count b0.bytes * 2)
      (fresh_buffer g (sb_data_block_count b0.bytes * 2))
      (sb_fat_block_count b0.bytes) 0 0 (fresh_buffer g (sb_data_block_count b0.bytes * 2))
      hloop (fresh_buffer_length _ _) (by simp) (by simp [fat_region])
      (fun j hj => absurd hj (Nat.not_lt_zero j)) (fun j _ => rfl)
    rw [Nat.zero_add] at hcont
    refine ⟨b0, g, _, hb, by rw [hst]; rfl, hg, by rw [hst]; rfl, hlen, ?_, ?_⟩
    · intro i hi hcov
      have hcov2 : 2 * i + 1 < sb_fat_block_count b0.bytes * BLOCK_SIZE := by
        simp only [BLOCK_SIZE] at hcov ⊢; omega
      simp only [fat_entry, hlen, show 2 * i + 1 < sb_data_block_count b0.bytes * 2 by omega,
        if_true, rd16, rd8, List.getD_eq_getElem?_getD]
      rw [hcont.1 (2 * i) (by omega), hcont.1 (2 * i + 1) (by omega)]
    · intro i hi hcov
      simp only [fat_entry, hlen, show 2 * i + 1 < sb_data_block_count b0.bytes * 2 by omega,
        if_true, rd16, rd8, List.getD_eq_getElem?_getD]
      rw [hcont.2 (2 * i) (by omega), hcont.2 (2 * i + 1) (by omega)]

/-! ## The counting loops of `fs_info` -/

theorem card_filter_Ico_succ (p : Nat → Prop) [DecidablePred p] (i n : Nat) :
    ((Finset.Ico i (i + (n + 1))).filter p).card =
      (if p i then 1 else 0) + ((Finset.Ico (i + 1) (i + 1 + n)).filter p).card := by
  have h : Finset.Ico i (i + (n + 1)) = insert i (Finset.Ico (i + 1) (i + 1 + n)) := by
    rw [show i + 1 + n = i + (n + 1) by omega]
    exact (Nat.Ico_insert_succ_left (by omega)).symm
  rw [h, Finset.filter_insert]
  split_ifs with hp
  · rw [Finset.card_insert_of_not_mem]
    · omega
    · simp
  · omega

/-- The first loop of `fs_info` counts the zero entries among the indices it
visits, provided they lie inside the buffer. -/
theorem fat_free_loop_eq (buf : List Nat) :
    ∀ (n i acc : Nat), (0 < n → (i + n) * 2 ≤ buf.length) →
      fat_free_loop buf n i acc =
        some (acc + ((Finset.Ico i (i + n)).filter (fun j => fat_entry buf j = some 0)).card) := by
  intro n
  induction n with
  | zero => intro i acc _; simp [fat_free_loop]
  | succ n ih =>
    intro i acc hb
    have hb2 := hb (Nat.succ_pos n)
    have hin : 2 * i + 1 < buf.length := by omega
    rw [card_filter_Ico_succ]
    simp only [fat_free_loop, fat_entry, hin, if_true]
    rw [ih (i + 1) _ (fun _ => by omega)]
    simp only [fat_entry, Option.some.injEq]
    split_ifs <;> simp
    omega

/-- The second loop of `fs_info` counts the slots whose first byte is NUL. -/
theorem rdir_free_loop_eq (root : List Nat) :
    ∀ (n i acc : Nat),
      rdir_free_loop root n i acc =
        acc + ((Finset.Ico i (i + n)).filter (fun k => rd8 root (k * DIR_ENTRY_SIZE) = 0)).card := by
  intro n
  induction n with
  | zero => intro i acc; simp [rdir_free_loop]
  | succ n ih =>
    intro i acc
    rw [card_filter_Ico_succ]
    simp only [rdir_free_loop]
    rw [ih (i + 1) _]
    split_ifs <;> omega

/-- In a directory of one block, the first byte of slot `k` is the head of the
filename of the decoded entry. -/
theorem slot_is_free_iff (root : List Nat) (k : Nat) (hl : root.length = BLOCK_SIZE)
    (hk : k < FS_MAX_FILES) :
    slot_is_free root k = true ↔ rd8 root (k * DIR_ENTRY_SIZE) = 0 := by
  have hlt : k * DIR_ENTRY_SIZE < root.length := by
    rw [hl]; simp only [DIR_ENTRY_SIZE, FS_MAX_FILENAME, BLOCK_SIZE, FS_MAX_FILES] at *; omega
  simp only [slot_is_free, dir_entry, rd8, beq_iff_eq, List.head?_take, FS_MAX_FILENAME,
    List.head?_drop, List.getD_eq_getElem?_getD, List.getElem?_eq_getElem hlt]
  simp

/-! ## Concrete disk images -/

theorem sb_small_fields :
    sb_signature sb_small.bytes = FS_SIGNATURE ∧ sb_total_blocks sb_small.bytes = 6 ∧
    sb_root_dir_index sb_small.bytes = 2 ∧ sb_data_start_index sb_small.bytes = 3 ∧
    sb_data_block_count sb_small.bytes = 3 ∧ sb_fat_block_count sb_small.bytes = 1 := by
  decide

theorem state_small_mounted : state_small.g_mounted = true := by decide

theorem state_small_reachable : Reachable state_small :=
  Reachable.step (Call.mount (Env.ofImage image_small zero_garbage) (some disk_name))
    Reachable.init rfl

theorem block_getD_lt (b : Block) (i : Nat) : b.bytes.getD i 0 < 256 := by
  by_cases h : i < b.bytes.length
  · rw [List.getD_eq_getElem _ _ h]
    exact b.byte_lt _ (List.getElem_mem _)
  · rw [List.getD_eq_default _ _ (by omega)]
    decide

theorem sb_total_blocks_lt (b : Block) : sb_total_blocks b.bytes < 65536 := by
  have h8 := block_getD_lt b 8
  have h9 := block_getD_lt b (8 + 1)
  simp only [sb_total_blocks, rd16, rd8]
  omega

/-- An unmounted filesystem accepts a valid image. -/
theorem fs_mount_accepts (env : Env) (s : FsState) (name : String)
    (hs : s.g_mounted = false) (hv : ServesValidImage env name) :
    (fs_mount env s (some name)).ret = 0 ∧ (fs_mount env s (some name)).st.g_mounted = true := by
  obtain ⟨hopen, block0, h0, hsig, hgeom, hcnt, hmalloc, hreads⟩ := hv
  obtain ⟨g, hg⟩ := Option.isSome_iff_exists.mp hmalloc
  obtain ⟨rb, hrb⟩ := Option.isSome_iff_exists.mp (hreads _ (Or.inr rfl))
  have hgeo : (1 + sb_fat_block_count block0.bytes + 1 + sb_data_block_count block0.bytes)
      % 65536 = sb_total_blocks block0.bytes := by
    rw [← hgeom]; exact Nat.mod_eq_of_lt (sb_total_blocks_lt block0)
  have hloop := (read_fat_loop_ok_iff env (sb_data_block_count block0.bytes * 2)
    (sb_fat_block_count block0.bytes) 0 0
    (fresh_buffer g (sb_data_block_count block0.bytes * 2))).mpr
    (fun k hk => hreads _ (Or.inl ⟨by omega, by omega⟩))
  have hok := fs_mount_ok env s name block0 rb g hs hopen h0 hsig hgeo hcnt hg hloop hrb
  exact ⟨hok.1, by rw [hok.2]; rfl⟩

/-! ## Mount validation -/

/-- Claim C1: for a superblock whose `total_blocks` is `1 + fat_block_count + 1 +
data_block_count` over the integers, starting unmounted with a non-null disk
name, with the device opening, delivering block 0, the FAT blocks and the root
directory block, and `malloc` succeeding, `fs_mount` returns 0 and sets the
mounted flag exactly when the first 8 bytes of block 0 are the signature and
the device reports `total_blocks` blocks; otherwise it returns -1 (and the
filesystem stays unmounted). -/
theorem fs_mount_validation (env : Env) (s : FsState) (name : String) (block0 : Block)
    (hs : s.g_mounted = false)
    (hopen : env.block_disk_open name = true)
    (h0 : env.block_read 0 = some block0)
    (hgeom : sb_total_blocks block0.bytes =
      1 + sb_fat_block_count block0.bytes + 1 + sb_data_block_count block0.bytes)
    (hreads : ∀ i, (1 ≤ i ∧ i ≤ sb_fat_block_count block0.bytes) ∨
      i = sb_root_dir_index block0.bytes → (env.block_read i).isSome = true)
    (hmalloc : (env.malloc (sb_data_block_count block0.bytes * 2)).isSome = true) :
    (((fs_mount env s (some name)).ret = 0 ∧ (fs_mount env s (some name)).st.g_mounted = true) ↔
      (block0.bytes.take 8 = FS_SIGNATURE ∧
        env.block_disk_count = (sb_total_blocks block0.bytes : Int))) ∧
    (¬(block0.bytes.take 8 = FS_SIGNATURE ∧
        env.block_disk_count = (sb_total_blocks block0.bytes : Int)) →
      (fs_mount env s (some name)).ret = -1 ∧
        (fs_mount env s (some name)).st.g_mounted = false) := by
  have hfwd : (fs_mount env s (some name)).ret = 0 →
      (block0.bytes.take 8 = FS_SIGNATURE ∧
        env.block_disk_count = (sb_total_blocks block0.bytes : Int)) := by
    intro hret
    rcases fs_mount_cases env s (some name) with ⟨h1, _⟩ | ⟨h1, _⟩ | ⟨_, _, n, b0, g, rb, hc⟩
    · rw [h1] at hret; cases hret
    · rw [h1] at hret; cases hret
    · obtain ⟨_, _, hb, hsig, _, hcnt, _⟩ := hc
      rw [h0] at hb
      cases hb
      exact ⟨hsig, hcnt⟩
  have hbwd : (block0.bytes.take 8 = FS_SIGNATURE ∧
        env.block_disk_count = (sb_total_blocks block0.bytes : Int)) →
      (fs_mount env s (some name)).ret = 0 ∧ (fs_mount env s (some name)).st.g_mounted = true := by
    rintro ⟨hsig, hcnt⟩
    exact fs_mount_accepts env s name hs ⟨hopen, block0, h0, hsig, hgeom, hcnt, hmalloc, hreads⟩
  refine ⟨⟨fun h => hfwd h.1, hbwd⟩, ?_⟩
  intro hn
  have hne : (fs_mount env s (some name)).ret ≠ 0 := fun h => hn (hfwd h)
  rcases fs_mount_cases env s (some name) with ⟨h1, h2⟩ | ⟨h1, h2⟩ | ⟨h1, _⟩
  · exact ⟨h1, by rw [h2]; exact hs⟩
  · exact ⟨h1, by rw [h2]; rfl⟩
  · exact absurd h1 hne

theorem image_small_reads (i : Nat)
    (h : (1 ≤ i ∧ i ≤ sb_fat_block_count sb_small.bytes) ∨
      i = sb_root_dir_index sb_small.bytes) :
    ((Env.ofImage image_small zero_garbage).block_read i).isSome = true := by
  obtain ⟨_, _, hroot, _, _, hfat⟩ := sb_small_fields
  rw [hroot, hfat] at h
  rcases h with ⟨h1, h2⟩ | h
  · have hi : i = 1 := by omega
    subst hi; rfl
  · subst h; rfl

/-- Witness of claim C1: the six-block image is mounted from the initial state. -/
theorem fs_mount_validation_witness :
    (initState.g_mounted = false ∧
      (Env.ofImage image_small zero_garbage).block_read 0 = some sb_small ∧
      sb_total_blocks sb_small.bytes =
        1 + sb_fat_block_count sb_small.bytes + 1 + sb_data_block_count sb_small.bytes) ∧
    ((fs_mount (Env.ofImage image_small zero_garbage) initState (some disk_name)).ret = 0 ∧
      (fs_mount (Env.ofImage image_small zero_garbage) initState (some disk_name)).st.g_mounted
        = true) :=
  ⟨⟨rfl, rfl, by decide⟩,
    (fs_mount_validation (Env.ofImage image_small zero_garbage) initState disk_name sb_small
      rfl rfl rfl (by decide) image_small_reads rfl).1.mpr ⟨by decide, by decide⟩⟩

/-! ## The geometry check wraps around at 16 bits -/

/-- Claim C2: on the one-block image whose superblock has `total_blocks = 1`,
`fat_block_count = 0` and `data_block_count = 65535`, the integer sum
`1 + 0 + 1 + 65535 = 65537` differs from `total_blocks`, yet `computed_total`
is `65537 mod 65536 = 1`, the check passes and `fs_mount` returns 0 with the
filesystem mounted. -/
theorem fs_mount_geometry_wraps :
    sb_total_blocks sb_wrap.bytes = 1 ∧ sb_fat_block_count sb_wrap.bytes = 0 ∧
    sb_data_block_count sb_wrap.bytes = 65535 ∧
    sb_total_blocks sb_wrap.bytes ≠
      1 + sb_fat_block_count sb_wrap.bytes + 1 + sb_data_block_count sb_wrap.bytes ∧
    (Env.ofImage image_wrap zero_garbage).block_read 0 = some sb_wrap ∧
    (fs_mount (Env.ofImage image_wrap zero_garbage) initState (some disk_name)).ret = 0 ∧
    (fs_mount (Env.ofImage image_wrap zero_garbage) initState (some disk_name)).st.g_mounted
      = true := by
  refine ⟨by decide, by decide, by decide, by decide, rfl, by decide, by decide⟩

/-! ## Failed and refused mounts -/

/-- Claim C3: from every reachable unmounted state, every call of `fs_mount` that
returns -1 (for whatever reason: null name, open failure, read failure, bad
signature, geometry or block-count mismatch, FAT or root directory load
failure) leaves the mounted flag false, `g_fat` null, and superblock and root
directory all zero. -/
theorem fs_mount_failure_rolls_back (s : FsState) (hr : Reachable s)
    (hu : s.g_mounted = false) (env : Env) (dn : Option String)
    (hf : (fs_mount env s dn).ret = -1) :
    (fs_mount env s dn).st.g_mounted = false ∧
    (fs_mount env s dn).st.g_fat = none ∧
    (fs_mount env s dn).st.g_sb = List.replicate SUPERBLOCK_SIZE 0 ∧
    (fs_mount env s dn).st.g_root = List.replicate (FS_MAX_FILES * DIR_ENTRY_SIZE) 0 := by
  have hclean : (fs_mount env s dn).st = initState := by
    rcases fs_mount_cases env s dn with ⟨_, h2⟩ | ⟨_, h2⟩ | ⟨h1, _⟩
    · rw [h2]; exact (reachable_inv s hr).1 hu
    · exact h2
    · rw [h1] at hf; cases hf
  rw [hclean]
  exact ⟨rfl, rfl, rfl, rfl⟩

/-- Witness of claim C3: a mount that fails while loading the FAT, after the
superblock was read and the FAT buffer allocated. -/
theorem fs_mount_failure_rolls_back_witness :
    (fs_mount env_fat_unreadable initState (some disk_name)).ops =
      [DevOp.disk_open disk_name, DevOp.block_read 0, DevOp.disk_count, DevOp.block_read 1,
        DevOp.disk_close] ∧
    (fs_mount env_fat_unreadable initState (some disk_name)).ret = -1 ∧
    ((fs_mount env_fat_unreadable initState (some disk_name)).st.g_mounted = false ∧
     (fs_mount env_fat_unreadable initState (some disk_name)).st.g_fat = none ∧
     (fs_mount env_fat_unreadable initState (some disk_name)).st.g_sb =
        List.replicate SUPERBLOCK_SIZE 0 ∧
     (fs_mount env_fat_unreadable initState (some disk_name)).st.g_root =
        List.replicate (FS_MAX_FILES * DIR_ENTRY_SIZE) 0) :=
  ⟨by decide, by decide,
    fs_mount_failure_rolls_back initState Reachable.init rfl env_fat_unreadable
      (some disk_name) (by decide)⟩

/-- Claim C4: when the filesystem is already mounted or the disk name is null,
`fs_mount` returns -1, calls no block device function and leaves the mounted
flag, the superblock, the FAT and the root directory as they were. -/
theorem fs_mount_refused (env : Env) (s : FsState) (dn : Option String)
    (h : s.g_mounted = true ∨ dn = none) :
    (fs_mount env s dn).ret = -1 ∧ (fs_mount env s dn).ops = [] ∧
    (fs_mount env s dn).st = s := by
  cases dn with
  | none => exact ⟨rfl, rfl, rfl⟩
  | some name =>
    rcases h with h | h
    · simp only [fs_mount, h, if_true]
      exact ⟨trivial, trivial, trivial⟩
    · cases h

/-- Witness of claim C4: mounting again while the six-block image is mounted. -/
theorem fs_mount_refused_witness :
    state_small.g_mounted = true ∧
    ((fs_mount (Env.ofImage image_small zero_garbage) state_small (some disk_name)).ret = -1 ∧
     (fs_mount (Env.ofImage image_small zero_garbage) state_small (some disk_name)).ops = [] ∧
     (fs_mount (Env.ofImage image_small zero_garbage) state_small (some disk_name)).st
        = state_small) :=
  ⟨state_small_mounted,
    fs_mount_refused (Env.ofImage image_small zero_garbage) state_small (some disk_name)
      (Or.inl state_small_mounted)⟩

/-! ## Where the root directory is read from -/

/-- Claim C5, refuted as stated: the image whose superblock says `fat_block_count = 1`
and `root_dir_index = 3` is mounted, and the in-memory root directory is not
the content of block `1 + fat_block_count = 2`. -/
theorem fs_mount_root_not_after_fat :
    (fs_mount (Env.ofImage image_shifted zero_garbage) initState (some disk_name)).ret = 0 ∧
    sb_fat_block_count
      (fs_mount (Env.ofImage image_shifted zero_garbage) initState (some disk_name)).st.g_sb
      = 1 ∧
    (Env.ofImage image_shifted zero_garbage).block_read (1 + 1) = some root_small ∧
    (fs_mount (Env.ofImage image_shifted zero_garbage) initState (some disk_name)).st.g_root
      ≠ root_small.bytes := by
  refine ⟨by decide, by decide, rfl, by decide⟩

/-- Claim C5, amended: on every successful `fs_mount` the superblock in memory is
block 0 of the device and the in-memory root directory is the content of the
device block whose index is the superblock field `root_dir_index` (which is
the block after the FAT when that field is `1 + fat_block_count`): one block
of 128 entries of 32 bytes, each a 16-byte filename, a 32-bit size, a 16-bit
first block index and 10 bytes of padding. -/
theorem fs_mount_loads_root_dir (env : Env) (s : FsState) (dn : Option String)
    (h : (fs_mount env s dn).ret = 0) :
    ∃ block0 rootblk,
      env.block_read 0 = some block0 ∧
      (fs_mount env s dn).st.g_sb = block0.bytes ∧
      env.block_read (sb_root_dir_index block0.bytes) = some rootblk ∧
      (fs_mount env s dn).st.g_root = rootblk.bytes ∧
      (sb_root_dir_index block0.bytes = 1 + sb_fat_block_count block0.bytes →
        env.block_read (1 + sb_fat_block_count block0.bytes) = some rootblk) ∧
      (fs_mount env s dn).st.g_root.length = FS_MAX_FILES * DIR_ENTRY_SIZE ∧
      DIR_ENTRY_SIZE = 32 ∧
      ∀ k, k < FS_MAX_FILES →
        (dir_entry (fs_mount env s dn).st.g_root k).filename.length = 16 ∧
        (dir_entry (fs_mount env s dn).st.g_root k).size < 2 ^ 32 ∧
        (dir_entry (fs_mount env s dn).st.g_root k).first_data_index < 2 ^ 16 ∧
        (dir_entry (fs_mount env s dn).st.g_root k).unused.length = 10 := by
  rcases fs_mount_cases env s dn with ⟨h1, _⟩ | ⟨h1, _⟩ | ⟨_, _, n, b0, g, rb, hc⟩
  · rw [h1] at h; cases h
  · rw [h1] at h; cases h
  · obtain ⟨_, _, hb, _, _, _, _, _, hroot, hst⟩ := hc
    refine ⟨b0, rb, hb, by rw [hst]; rfl, hroot, by rw [hst]; rfl, ?_, ?_, rfl, ?_⟩
    · intro he; rw [← he]; exact hroot
    · rw [hst]; exact rb.size_eq
    · intro k hk
      rw [hst]
      have hl := rb.size_eq
      simp only [mounted_state, dir_entry, rd32, rd16, rd8, List.length_take, List.length_drop,
        hl, DIR_ENTRY_SIZE, FS_MAX_FILENAME, BLOCK_SIZE, FS_MAX_FILES] at hk ⊢
      have := block_getD_lt rb (k * (16 + 4 + 2 + 10) + 16)
      have := block_getD_lt rb (k * (16 + 4 + 2 + 10) + 16 + 1)
      have := block_getD_lt rb (k * (16 + 4 + 2 + 10) + 16 + 2)
      have := block_getD_lt rb (k * (16 + 4 + 2 + 10) + 16 + 2 + 1)
      have := block_getD_lt rb (k * (16 + 4 + 2 + 10) + 20)
      have := block_getD_lt rb (k * (16 + 4 + 2 + 10) + 20 + 1)
      refine ⟨by omega, by omega, by omega, by omega⟩

/-- Witness of claim C5: the six-block image with the directory in block 2. -/
theorem fs_mount_loads_root_dir_witness :
    (fs_mount (Env.ofImage image_small zero_garbage) initState (some disk_name)).ret = 0 ∧
    ∃ block0 rootblk,
      (Env.ofImage image_small zero_garbage).block_read 0 = some block0 ∧
      (fs_mount (Env.ofImage image_small zero_garbage) initState (some disk_name)).st.g_sb
        = block0.bytes ∧
      (Env.ofImage image_small zero_garbage).block_read (sb_root_dir_index block0.bytes)
        = some rootblk ∧
      (fs_mount (Env.ofImage image_small zero_garbage) initState (some disk_name)).st.g_root
        = rootblk.bytes := by
  refine ⟨by decide, ?_⟩
  obtain ⟨b0, rb, h1, h2, h3, h4, _⟩ :=
    fs_mount_loads_root_dir (Env.ofImage image_small zero_garbage) initState (some disk_name)
      (by decide)
  exact ⟨b0, rb, h1, h2, h3, h4⟩

/-! ## FAT entries that no FAT block covers -/

/-- Claim C6: the four-block image whose superblock has `data_block_count = 2` and
`fat_block_count = 0` (so `total_blocks = 1 + 0 + 1 + 2` holds) is mounted, the
loop of `read_fat` copies nothing, and the FAT in memory is whatever `malloc`
returned: the same disk gives entry 1 the value 0 with zeroed fresh memory and
0xABAB with stale fresh memory, and `fs_info` reports 1/2 respectively 0/2. -/
theorem fs_mount_fat_uninitialised :
    sb_data_block_count sb_nofat.bytes = 2 ∧ sb_fat_block_count sb_nofat.bytes = 0 ∧
    sb_total_blocks sb_nofat.bytes =
      1 + sb_fat_block_count sb_nofat.bytes + 1 + sb_data_block_count sb_nofat.bytes ∧
    (fs_mount (Env.ofImage image_nofat zero_garbage) initState (some disk_name)).ret = 0 ∧
    (fs_mount (Env.ofImage image_nofat stale_garbage) initState (some disk_name)).ret = 0 ∧
    (fs_mount (Env.ofImage image_nofat zero_garbage) initState (some disk_name)).st.g_fat
      = some [0, 0, 0, 0] ∧
    (fs_mount (Env.ofImage image_nofat stale_garbage) initState (some disk_name)).st.g_fat
      = some [0xAB, 0xAB, 0xAB, 0xAB] ∧
    fat_entry [0, 0, 0, 0] 1 = some 0 ∧
    fat_entry [0xAB, 0xAB, 0xAB, 0xAB] 1 = some 0xABAB ∧
    (fs_info (fs_mount (Env.ofImage image_nofat zero_garbage) initState
      (some disk_name)).st).map (fun r => r.out.map (fun o => o.fat_free_ratio))
      = some (some (1, 2)) ∧
    (fs_info (fs_mount (Env.ofImage image_nofat stale_garbage) initState
      (some disk_name)).st).map (fun r => r.out.map (fun o => o.fat_free_ratio))
      = some (some (0, 2)) := by
  refine ⟨by decide, by decide, by decide, by decide, by decide, by decide, by decide,
    by decide, by decide, by decide, by decide⟩

/-! ## `fs_info` -/

/-- Claim C7: on every reachable mounted state `fs_info` returns 0 and leaves the
state as it is; the printed `fat_free_ratio` is the number of indices `i` with
`1 ≤ i < data_block_count` whose FAT entry is 0 (index 0 is not among them),
over `data_block_count`; the printed `rdir_free_ratio` is the number of the 128
slots whose filename starts with NUL, over 128; and a second call right after
gives the same result. -/
theorem fs_info_report (s : FsState) (hr : Reachable s) (hm : s.g_mounted = true) :
    ∃ buf out,
      s.g_fat = some buf ∧
      fs_info s = some ⟨0, s, some out⟩ ∧
      out.fat_free_ratio =
        (((Finset.Ico 1 (sb_data_block_count s.g_sb)).filter
            (fun i => fat_entry buf i = some 0)).card,
          sb_data_block_count s.g_sb) ∧
      out.rdir_free_ratio =
        (((Finset.range FS_MAX_FILES).filter (fun k => slot_is_free s.g_root k = true)).card,
          FS_MAX_FILES) ∧
      ∀ r, fs_info s = some r → fs_info r.st = some r := by
  obtain ⟨buf, hbuf, hlen, _, hroot⟩ := (reachable_inv s hr).2 hm
  have hloop := fat_free_loop_eq buf (sb_data_block_count s.g_sb - 1) 1 0
    (fun h => by rw [hlen]; omega)
  have hrd := rdir_free_loop_eq s.g_root FS_MAX_FILES 0 0
  have hico : Finset.Ico 1 (1 + (sb_data_block_count s.g_sb - 1))
      = Finset.Ico 1 (sb_data_block_count s.g_sb) := by
    by_cases h0 : sb_data_block_count s.g_sb = 0
    · rw [h0]; rfl
    · rw [show 1 + (sb_data_block_count s.g_sb - 1) = sb_data_block_count s.g_sb by omega]
  have hfilter : (Finset.Ico 0 (0 + FS_MAX_FILES)).filter
      (fun k => rd8 s.g_root (k * DIR_ENTRY_SIZE) = 0)
      = (Finset.range FS_MAX_FILES).filter (fun k => slot_is_free s.g_root k = true) := by
    rw [Nat.zero_add, ← Finset.range_eq_Ico]
    apply Finset.filter_congr
    intro k hk
    exact (slot_is_free_iff s.g_root k hroot (Finset.mem_range.mp hk)).symm
  rw [hico] at hloop
  rw [hfilter] at hrd
  rw [Nat.zero_add] at hloop hrd
  refine ⟨buf,
    { total_blk_count := sb_total_blocks s.g_sb
      fat_blk_count := sb_fat_block_count s.g_sb
      rdir_blk := sb_root_dir_index s.g_sb
      data_blk := sb_data_start_index s.g_sb
      data_blk_count := sb_data_block_count s.g_sb
      fat_free_ratio := (((Finset.Ico 1 (sb_data_block_count s.g_sb)).filter
        (fun i => fat_entry buf i = some 0)).card, sb_data_block_count s.g_sb)
      rdir_free_ratio := (((Finset.range FS_MAX_FILES).filter
        (fun k => slot_is_free s.g_root k = true)).card, FS_MAX_FILES) },
    hbuf, ?_, rfl, rfl, ?_⟩
  · simp only [fs_info, hm, hbuf, fat_bytes_of, hloop, hrd, Bool.not_true, Bool.false_eq_true,
      if_false]
  · intro r hr2
    rw [fs_info_st s r hr2]; exact hr2

theorem Block.ofBytes_getD_zero (pre : List Nat) (i : Nat) (h : pre.length ≤ i) :
    (Block.ofBytes pre).bytes.getD i 0 = 0 := by
  simp only [Block.ofBytes, List.getD_eq_getElem?_getD, List.getElem?_take]
  split_ifs with h1
  · rw [List.getElem?_append_right (by simpa using h)]
    simp only [List.getElem?_replicate, List.length_map]
    split_ifs <;> rfl
  · rfl

theorem state_small_root : state_small.g_root = root_small.bytes := rfl

theorem state_small_slots_free (j : Nat) (hj : j < FS_MAX_FILES) (h0 : j ≠ 0) :
    slot_is_free state_small.g_root j = true := by
  rw [state_small_root, slot_is_free_iff _ _ root_small.size_eq hj]
  exact Block.ofBytes_getD_zero _ _ (by
    simp only [List.length_append, List.length_replicate, List.length_cons, List.length_nil,
      DIR_ENTRY_SIZE, FS_MAX_FILENAME]
    omega)

theorem state_small_free_slots :
    ((Finset.range FS_MAX_FILES).filter (fun k => slot_is_free state_small.g_root k = true)).card
      = 127 := by
  have h : (Finset.range FS_MAX_FILES).filter (fun k => slot_is_free state_small.g_root k = true)
      = (Finset.range FS_MAX_FILES).filter (fun k => k ≠ 0) := by
    apply Finset.filter_congr
    intro k hk
    constructor
    · intro hf h0
      subst h0
      revert hf
      decide
    · exact state_small_slots_free k (Finset.mem_range.mp hk)
  rw [h]
  rfl

/-- Witness of claim C7: after mounting the six-block image, whose FAT holds the
entries 0, 0 and `FAT_EOC`, only index 1 counts as free although entry 0 is 0
too, and 127 of the 128 slots are free. -/
theorem fs_info_report_witness :
    state_small.g_mounted = true ∧
    state_small.g_fat = some [0, 0, 0, 0, 255, 255] ∧
    fat_entry [0, 0, 0, 0, 255, 255] 0 = some 0 ∧
    (fs_info state_small).map (fun r => r.out.map (fun o => o.fat_free_ratio))
      = some (some (1, 3)) ∧
    ((Finset.range FS_MAX_FILES).filter (fun k => slot_is_free state_small.g_root k = true)).card
      = 127 ∧
    ∃ buf out,
      state_small.g_fat = some buf ∧
      fs_info state_small = some ⟨0, state_small, some out⟩ ∧
      out.fat_free_ratio =
        (((Finset.Ico 1 (sb_data_block_count state_small.g_sb)).filter
            (fun i => fat_entry buf i = some 0)).card,
          sb_data_block_count state_small.g_sb) ∧
      out.rdir_free_ratio =
        (((Finset.range FS_MAX_FILES).filter
            (fun k => slot_is_free state_small.g_root k = true)).card,
          FS_MAX_FILES) ∧
      ∀ r, fs_info state_small = some r → fs_info r.st = some r :=
  ⟨state_small_mounted, by decide, by decide, by decide, state_small_free_slots,
    fs_info_report state_small state_small_reachable state_small_mounted⟩

/-! ## `fs_umount` -/

/-- Claim C8, refuted as stated: with the six-block image mounted, `fs_umount`
returns -1 when `block_disk_close` fails, although the filesystem was
mounted. -/
theorem fs_umount_fails_when_mounted :
    state_small.g_mounted = true ∧ (fs_umount env_close_fails state_small).ret = -1 := by
  refine ⟨by decide, by decide⟩

/-- Claim C8, amended: from an unmounted state `fs_umount` returns -1, calls no
device function and changes nothing; from a mounted state it releases the FAT,
zeroes superblock and root directory, clears the mounted flag, calls
`block_disk_close` and returns 0 when that call succeeds and -1 when it fails;
afterwards `fs_info` and `fs_umount` return -1 and `fs_mount` accepts a valid
image. -/
theorem fs_umount_teardown (env : Env) (s : FsState) :
    (s.g_mounted = false → fs_umount env s = ⟨-1, s, []⟩) ∧
    (s.g_mounted = true →
      (fs_umount env s).st.g_mounted = false ∧
      (fs_umount env s).st.g_fat = none ∧
      (fs_umount env s).st.g_sb = List.replicate SUPERBLOCK_SIZE 0 ∧
      (fs_umount env s).st.g_root = List.replicate (FS_MAX_FILES * DIR_ENTRY_SIZE) 0 ∧
      (fs_umount env s).ops = [DevOp.disk_close] ∧
      (env.block_disk_close = true → (fs_umount env s).ret = 0) ∧
      (env.block_disk_close = false → (fs_umount env s).ret = -1) ∧
      fs_info (fs_umount env s).st = some ⟨-1, (fs_umount env s).st, none⟩ ∧
      (∀ env2, (fs_umount env2 (fs_umount env s).st).ret = -1) ∧
      (∀ env2 name, ServesValidImage env2 name →
        (fs_mount env2 (fs_umount env s).st (some name)).ret = 0 ∧
        (fs_mount env2 (fs_umount env s).st (some name)).st.g_mounted = true)) := by
  constructor
  · intro h
    simp only [fs_umount, h, Bool.not_false, if_true]
  · intro h
    have hst : (fs_umount env s).st = initState := by
      simp only [fs_umount, h, Bool.not_true, Bool.false_eq_true, if_false]
      split_ifs <;> rfl
    have hops : (fs_umount env s).ops = [DevOp.disk_close] := by
      simp only [fs_umount, h, Bool.not_true, Bool.false_eq_true, if_false]
      split_ifs <;> rfl
    refine ⟨by rw [hst]; rfl, by rw [hst]; rfl, by rw [hst]; rfl, by rw [hst]; rfl, hops,
      ?_, ?_, by rw [hst]; rfl, ?_, ?_⟩
    · intro hc
      simp only [fs_umount, h, hc, Bool.not_true, Bool.false_eq_true, if_false]
    · intro hc
      simp only [fs_umount, h, hc, Bool.not_true, Bool.not_false, Bool.false_eq_true, if_false,
        if_true]
    · intro env2; rw [hst]; rfl
    · intro env2 name hv
      rw [hst]
      exact fs_mount_accepts env2 initState name rfl hv

theorem image_small_valid : ServesValidImage (Env.ofImage image_small zero_garbage) disk_name :=
  ⟨rfl, sb_small, rfl, by decide, by decide, by decide, rfl, image_small_reads⟩

/-- Witness of claim C8: unmounting the six-block image on a device that closes, and
mounting it again. -/
theorem fs_umount_teardown_witness :
    state_small.g_mounted = true ∧
    (fs_umount (Env.ofImage image_small zero_garbage) state_small).ret = 0 ∧
    (fs_umount (Env.ofImage image_small zero_garbage) state_small).st.g_mounted = false ∧
    (fs_umount (Env.ofImage image_small zero_garbage) state_small).st.g_fat = none ∧
    (fs_mount (Env.ofImage image_small zero_garbage)
      (fs_umount (Env.ofImage image_small zero_garbage) state_small).st (some disk_name)).ret
        = 0 ∧
    fs_umount (Env.ofImage image_small zero_garbage) initState = ⟨-1, initState, []⟩ :=
  have h := (fs_umount_teardown (Env.ofImage image_small zero_garbage) state_small).2
    state_small_mounted
  ⟨state_small_mounted, h.2.2.2.2.2.1 rfl, h.1, h.2.1,
    (h.2.2.2.2.2.2.2.2.2 (Env.ofImage image_small zero_garbage) disk_name image_small_valid).1,
    (fs_umount_teardown (Env.ofImage image_small zero_garbage) initState).1 rfl⟩

/-! ## Operations on an unmounted filesystem -/

/-- Claim C9: in every unmounted state, `fs_umount`, `fs_info`, `fs_create`,
`fs_delete`, `fs_ls`, `fs_open`, `fs_close`, `fs_stat`, `fs_lseek`, `fs_read`
and `fs_write` return -1 for every argument (and every behaviour of the
device), call no device function and leave the mounted flag, the superblock,
the FAT and the root directory unchanged. -/
theorem unmounted_operations_fail (s : FsState) (h : s.g_mounted = false) :
    (∀ env, fs_umount env s = ⟨-1, s, []⟩) ∧
    fs_info s = some ⟨-1, s, none⟩ ∧
    (∀ filename, fs_create s filename = ⟨-1, s, []⟩) ∧
    (∀ filename, fs_delete s filename = ⟨-1, s, []⟩) ∧
    fs_ls s = ⟨-1, s, []⟩ ∧
    (∀ filename, fs_open s filename = ⟨-1, s, []⟩) ∧
    (∀ fd, fs_close s fd = ⟨-1, s, []⟩) ∧
    (∀ fd, fs_stat s fd = ⟨-1, s, []⟩) ∧
    (∀ fd offset, fs_lseek s fd offset = ⟨-1, s, []⟩) ∧
    (∀ fd buf count, fs_read s fd buf count = ⟨-1, s, []⟩) ∧
    (∀ fd buf count, fs_write s fd buf count = ⟨-1, s, []⟩) := by
  refine ⟨?_, ?_, fun _ => rfl, fun _ => rfl, rfl, fun _ => rfl, fun _ => rfl, fun _ => rfl,
    fun _ _ => rfl, fun _ _ _ => rfl, fun _ _ _ => rfl⟩
  · intro env
    simp only [fs_umount, h, Bool.not_false, if_true]
  · simp only [fs_info, h, Bool.not_false, if_true]

/-- Witness of claim C9: the operations at program start. -/
theorem unmounted_operations_fail_witness :
    initState.g_mounted = false ∧
    fs_umount (Env.ofImage image_small zero_garbage) initState = ⟨-1, initState, []⟩ ∧
    fs_info initState = some ⟨-1, initState, none⟩ ∧
    fs_create initState (some disk_name) = ⟨-1, initState, []⟩ :=
  have h := unmounted_operations_fail initState rfl
  ⟨rfl, h.1 _, h.2.1, h.2.2.1 _⟩

/-! ## `fs_create` -/

theorem new_name_creatable : creatable state_small.g_root new_name := by
  refine ⟨by decide, by decide, ?_, 1, by decide, by decide⟩
  intro k hk hocc
  have h0 : k = 0 := by
    by_contra hne
    rw [state_small_slots_free k hk hne] at hocc
    cases hocc
  subst h0
  decide

/-- Claim C10, refuted as stated: with the six-block image mounted, the name "b" is
not empty, short enough and not in the directory, 127 slots are free, and
`fs_create` returns -1 and leaves slot 1 free. -/
theorem fs_create_fails_on_valid_input :
    state_small.g_mounted = true ∧
    creatable state_small.g_root new_name ∧
    (fs_create state_small (some new_name)).ret = -1 ∧
    slot_is_free (fs_create state_small (some new_name)).st.g_root 1 = true :=
  ⟨state_small_mounted, new_name_creatable, rfl, by decide⟩

/-- Claim C10, amended: `fs_create` is not implemented: in every state, mounted
or not, and for every filename it returns -1, calls no device function and
leaves the state, every slot of the root directory included, unchanged; so in
every sequence of creates each call fails, the 129th like the first, and the
state after the sequence is the state before it. -/
theorem fs_create_unimplemented (s : FsState) (filename : Option String) :
    (fs_create s filename).ret = -1 ∧ (fs_create s filename).ops = [] ∧
    (fs_create s filename).st = s ∧
    ∀ names : List (Option String),
      names.foldl (fun st fn => (fs_create st fn).st) s = s ∧
      names.map (fun fn => (fs_create s fn).ret) = List.replicate names.length (-1) := by
  refine ⟨rfl, rfl, rfl, ?_⟩
  intro names
  constructor
  · induction names with
    | nil => rfl
    | cons a l ih => exact ih
  · induction names with
    | nil => rfl
    | cons a l ih =>
      rw [List.map_cons, List.length_cons, List.replicate_succ, ih]
      rfl

end Libfs
